import Mathlib

/-!
A shallow embedding of the OpenMetadata aggregation routes in `src/temp.py`,
together with theorems settling the specification claims about them.

Upstream JSON payloads are modelled by the `Json` type below; the Python
dictionary/iteration semantics the code relies on (`dict.get`, truthiness,
iteration over arbitrary values, `len`) are embedded as `Except`-valued
operations so that a raised Python exception corresponds to an `Except.error`
value.  Each outbound HTTP call is abstracted as an oracle keyed by the
varying request datum (service name, parent fully-qualified name, table id);
a response is a status code plus an already-decoded JSON body.
-/

/-- JSON values as decoded from upstream response bodies. -/
inductive Json where
  | null
  | bool (b : Bool)
  | num (n : Int)
  | str (s : String)
  | arr (items : List Json)
  | obj (fields : List (String × Json))
deriving Repr

mutual

/-- Boolean equality on JSON values. -/
def Json.beq : Json → Json → Bool
  | .null, .null => true
  | .bool a, .bool b => a == b
  | .num a, .num b => a == b
  | .str a, .str b => a == b
  | .arr a, .arr b => Json.beqList a b
  | .obj a, .obj b => Json.beqFields a b
  | _, _ => false

/-- Boolean equality on JSON arrays. -/
def Json.beqList : List Json → List Json → Bool
  | [], [] => true
  | x :: xs, y :: ys => Json.beq x y && Json.beqList xs ys
  | _, _ => false

/-- Boolean equality on JSON object field lists. -/
def Json.beqFields : List (String × Json) → List (String × Json) → Bool
  | [], [] => true
  | (k, v) :: xs, (l, w) :: ys => k == l && Json.beq v w && Json.beqFields xs ys
  | _, _ => false

end

mutual

theorem Json.beq_iff : ∀ a b : Json, Json.beq a b = true ↔ a = b
  | .null, b => by cases b <;> simp [Json.beq]
  | .bool a, b => by cases b <;> simp [Json.beq]
  | .num a, b => by cases b <;> simp [Json.beq]
  | .str a, b => by cases b <;> simp [Json.beq]
  | .arr a, b => by
      cases b <;> simp [Json.beq]
      exact Json.beqList_iff a _
  | .obj a, b => by
      cases b <;> simp [Json.beq]
      exact Json.beqFields_iff a _

theorem Json.beqList_iff : ∀ a b : List Json, Json.beqList a b = true ↔ a = b
  | [], b => by cases b <;> simp [Json.beqList]
  | x :: xs, b => by
      cases b with
      | nil => simp [Json.beqList]
      | cons y ys =>
        simp [Json.beqList, Json.beq_iff x y, Json.beqList_iff xs ys]

theorem Json.beqFields_iff : ∀ a b : List (String × Json), Json.beqFields a b = true ↔ a = b
  | [], b => by cases b <;> simp [Json.beqFields]
  | (k, v) :: xs, b => by
      cases b with
      | nil => simp [Json.beqFields]
      | cons p ys =>
        obtain ⟨l, w⟩ := p
        simp [Json.beqFields, Json.beq_iff v w, Json.beqFields_iff xs ys, Prod.ext_iff]

end

instance : DecidableEq Json := fun a b =>
  decidable_of_iff (Json.beq a b = true) (Json.beq_iff a b)

/-- Python truthiness of a JSON-decoded value (`if x:`): `None`, `False`, `0`,
the empty string, the empty list and the empty dict are falsy. -/
def Json.truthy : Json → Bool
  | .null => false
  | .bool b => b
  | .num n => n ≠ 0
  | .str s => s ≠ ""
  | .arr xs => !xs.isEmpty
  | .obj fs => !fs.isEmpty

/-- First binding of key `k` in a JSON object field list (Python dict lookup). -/
def lookup? (fs : List (String × Json)) (k : String) : Option Json :=
  (fs.find? (fun p => p.1 = k)).map (·.2)

/-- Dict lookup with a default value: `d.get(k, dflt)`. -/
def lookupD (fs : List (String × Json)) (k : String) (dflt : Json) : Json :=
  (lookup? fs k).getD dflt

/-- Exceptions the embedded Python code can raise. -/
inductive Err where
  /-- `requests.HTTPError`, raised by `raise_for_status()` on a 4xx/5xx. -/
  | httpError (status : Nat)
  /-- `AttributeError`, raised by calling `.get` on a non-dict value. -/
  | attributeError
  /-- `TypeError`, raised by iterating or taking `len` of an unsuitable value,
  or by inserting an unhashable value into a set. -/
  | typeError
deriving Repr, DecidableEq

/-- `x.get(k, dflt)`: dict lookup with default; raises `AttributeError` when
`x` is not a dict. -/
def Json.pyGet (j : Json) (k : String) (dflt : Json) : Except Err Json :=
  match j with
  | .obj fs => .ok (lookupD fs k dflt)
  | _ => .error .attributeError

/-- `x.get(k)`: dict lookup defaulting to `None`. -/
def Json.pyGet1 (j : Json) (k : String) : Except Err Json :=
  j.pyGet k .null

/-- Python iteration over a JSON-decoded value: lists yield their items,
strings their characters, dicts their keys; other values raise `TypeError`. -/
def Json.pyIter : Json → Except Err (List Json)
  | .arr xs => .ok xs
  | .str s => .ok (s.data.map (fun c => Json.str (String.mk [c])))
  | .obj fs => .ok (fs.map (fun p => Json.str p.1))
  | _ => .error .typeError

/-- `len(x)` on a JSON-decoded value; raises `TypeError` on unsized values. -/
def Json.pyLen : Json → Except Err Nat
  | .arr xs => .ok xs.length
  | .str s => .ok s.length
  | .obj fs => .ok fs.length
  | _ => .error .typeError

/-- `str(x)` as used in f-string messages.  Exact for the scalar values the
messages are exercised on; list/dict renderings are approximated. -/
def pyStr : Json → String
  | .null => "None"
  | .bool true => "True"
  | .bool false => "False"
  | .num n => toString n
  | .str s => s
  | .arr _ => "[...]"
  | .obj _ => "\x7b...\x7d"

/-- ASCII lowering, `s.lower()`. -/
def pyLower (s : String) : String := String.mk (s.data.map Char.toLower)

/-- Whether `n` occurs at the start of `hay`. -/
def leadMatch : List Char → List Char → Bool
  | [], _ => true
  | _ :: _, [] => false
  | a :: as, b :: bs => a = b && leadMatch as bs

/-- Whether `n` occurs contiguously anywhere in `hay`. -/
def containsSeg : List Char → List Char → Bool
  | hay, n =>
    match hay with
    | [] => n.isEmpty
    | _ :: rest => leadMatch n hay || containsSeg rest n

/-- Python substring test `needle in hay`. -/
def pyContains (hay needle : String) : Bool := containsSeg hay.data needle.data

/-- An upstream HTTP response: status code plus decoded JSON body. -/
structure Response where
  status : Nat
  body : Json
deriving Repr, DecidableEq

/-- A `fastapi.HTTPException` surfaced to the caller. -/
structure HTTPException where
  status : Nat
  detail : String
deriving Repr, DecidableEq

/-- The three boolean query flags of the metadata extraction endpoint. -/
structure Flags where
  include_sample_data : Bool := false
  include_table_profiles : Bool := false
  include_lineage : Bool := false
deriving Repr, DecidableEq

/-- Embeds `_build_include_params`: the include-parameter list of the detailed
table fetch, gated by the three request flags. -/
def build_include_params (flags : Flags) : List String :=
  let base := ["all", "joins", "tags", "owner", "followers", "extension", "domain",
    "dataProducts", "votes", "lifeCycle", "certification", "sourceHash"]
  let base := if flags.include_sample_data then base ++ ["sampleData"] else base
  let base := if flags.include_table_profiles then base ++ ["tableProfile", "profile"] else base
  if flags.include_lineage then base ++ ["lineage", "dataProducts", "upstream", "downstream"] else base

/-- Outcome of the per-table detail fetch: a response, or a transport-level
fault (any exception raised by the call). -/
inductive DetailOutcome where
  | resp (r : Response)
  | fault
deriving Repr, DecidableEq

/-- Oracle for the outbound calls of the metadata extraction pipeline, keyed
by the datum that varies per call site. -/
structure Upstream where
  /-- `GET /services/databaseServices/name/{service_name}`. -/
  serviceResp : String → Response
  /-- `GET /databases?service={service_name}`. -/
  databasesResp : String → Response
  /-- `GET /databaseSchemas?database={database FQN}`. -/
  schemasResp : Json → Response
  /-- `GET /tables?databaseSchema={schema FQN}`. -/
  tablesResp : Json → Response
  /-- `GET /tables/{table_id}` with the include parameters of `flags`. -/
  tableDetail : Json → Flags → DetailOutcome

/-- `TagModel`: normalized tag value object. -/
structure TagModel where
  tagFQN : Json := Json.str ""
  description : Json := Json.null
  source : Json := Json.null
deriving Repr, DecidableEq

/-- `OwnerModel`: normalized owner value object. -/
structure OwnerModel where
  id : Json := Json.null
  name : Json := Json.str ""
  type : Json := Json.str ""
  fullyQualifiedName : Json := Json.null
deriving Repr, DecidableEq

/-- The non-recursive fields of a normalized `ColumnModel`.  Field defaults
model the pydantic optional-field defaults described by the specification
(empty string for required string identities, null or empty list otherwise);
the pydantic class itself lives in `app.schemas`, outside this repository
snapshot. -/
structure ColumnAttrs where
  name : Json := Json.str ""
  dataType : Json := Json.null
  dataTypeDisplay : Json := Json.null
  description : Json := Json.null
  ordinalPosition : Json := Json.null
  constraint : Json := Json.null
  tags : List TagModel := []
  nullable : Json := Json.null
  defaultValue : Json := Json.null
  precision : Json := Json.null
  scale : Json := Json.null
  maxLength : Json := Json.null
  arrayDataType : Json := Json.null
  dataLength : Json := Json.null
  jsonSchema : Json := Json.null
  fullyQualifiedName : Json := Json.null
  customMetrics : Json := Json.null
deriving Repr, DecidableEq

/-- `ColumnModel`: a normalized column, with recursive child columns. -/
inductive ColumnModel where
  | node (attrs : ColumnAttrs) (children : List ColumnModel)
deriving Repr

/-- The non-recursive attributes of a column. -/
def ColumnModel.attrs : ColumnModel → ColumnAttrs
  | .node a _ => a

/-- The child columns of a column. -/
def ColumnModel.children : ColumnModel → List ColumnModel
  | .node _ cs => cs

mutual

/-- Boolean equality on column models. -/
def ColumnModel.beq : ColumnModel → ColumnModel → Bool
  | .node a cs, .node b ds => decide (a = b) && ColumnModel.beqList cs ds

/-- Boolean equality on lists of column models. -/
def ColumnModel.beqList : List ColumnModel → List ColumnModel → Bool
  | [], [] => true
  | x :: xs, y :: ys => ColumnModel.beq x y && ColumnModel.beqList xs ys
  | _, _ => false

end

mutual

theorem ColumnModel.beq_iff_col : ∀ a b : ColumnModel, ColumnModel.beq a b = true ↔ a = b
  | .node a cs, .node b ds => by
      simp [ColumnModel.beq, ColumnModel.beqList_iff_col cs ds]

theorem ColumnModel.beqList_iff_col : ∀ a b : List ColumnModel,
    ColumnModel.beqList a b = true ↔ a = b
  | [], b => by cases b <;> simp [ColumnModel.beqList]
  | x :: xs, b => by
      cases b with
      | nil => simp [ColumnModel.beqList]
      | cons y ys =>
        simp [ColumnModel.beqList, ColumnModel.beq_iff_col x y, ColumnModel.beqList_iff_col xs ys]

end

instance : DecidableEq ColumnModel := fun a b =>
  decidable_of_iff (ColumnModel.beq a b = true) (ColumnModel.beq_iff_col a b)

/-- `TableModel`: a normalized table.  Fields not supplied at a construction
site take the pydantic defaults (modelled per the specification). -/
structure TableModel where
  id : Json := Json.str ""
  name : Json := Json.str ""
  fullyQualifiedName : Json := Json.str ""
  tableType : Json := Json.null
  description : Json := Json.null
  displayName : Json := Json.null
  owners : List OwnerModel := []
  tags : List TagModel := []
  columns : List ColumnModel := []
  column_count : Nat := 0
  tableConstraints : Json := Json.null
  partitionKeys : Json := Json.null
  distributionKeys : Json := Json.null
  sortKeys : Json := Json.null
  tableProfile : Json := Json.null
  sampleData : Json := Json.null
  usageSummary : Json := Json.null
  lineage : Json := Json.null
  schemaDefinition : Json := Json.null
  location : Json := Json.null
  locationPath : Json := Json.null
  fileFormat : Json := Json.null
  retentionPeriod : Json := Json.null
  sourceUrl : Json := Json.null
  domains : List Json := []
  dataProducts : List Json := []
  lifeCycle : Json := Json.null
  certification : Json := Json.null
  votes : Json := Json.null
  testSuite : Json := Json.null
  queries : Json := Json.null
  customMetrics : Json := Json.null
  sourceHash : Json := Json.null
  processedLineage : Json := Json.null
  joins : Json := Json.null
  followers : List Json := []
deriving Repr, DecidableEq

/-- `SchemaModel`: a normalized database schema. -/
structure SchemaModel where
  id : Json := Json.str ""
  name : Json := Json.str ""
  fullyQualifiedName : Json := Json.str ""
  description : Json := Json.null
  tables : List TableModel := []
  table_count : Nat := 0
  owners : List OwnerModel := []
  tags : List TagModel := []
  retentionPeriod : Json := Json.null
deriving Repr, DecidableEq

/-- `DatabaseModel`: a normalized database. -/
structure DatabaseModel where
  id : Json := Json.str ""
  name : Json := Json.str ""
  fullyQualifiedName : Json := Json.str ""
  description : Json := Json.null
  owners : List OwnerModel := []
  schemas : List SchemaModel := []
  schema_count : Nat := 0
  table_count : Nat := 0
  tags : List TagModel := []
  location : Json := Json.null
  databaseVersion : Json := Json.null
  dataProducts : List Json := []
  usageSummary : Json := Json.null
  retentionPeriod : Json := Json.null
  sourceUrl : Json := Json.null
  domains : List Json := []
  votes : Json := Json.null
  lifeCycle : Json := Json.null
  certification : Json := Json.null
  followers : List Json := []
  sourceHash : Json := Json.null
  default : Json := Json.null
deriving Repr, DecidableEq

/-- `ServiceModel`: the normalized service record. -/
structure ServiceModel where
  id : Json := Json.str ""
  name : Json := Json.str ""
  serviceType : Json := Json.str ""
  description : Json := Json.null
  displayName : Json := Json.null
  fullyQualifiedName : Json := Json.str ""
  owners : List OwnerModel := []
  tags : List TagModel := []
  connection : Json := Json.null
  version : Json := Json.null
  ingestionSchedule : Json := Json.null
  sourceUrl : Json := Json.null
  domains : List Json := []
  dataProducts : List Json := []
  lifeCycle : Json := Json.null
  certification : Json := Json.null
  votes : Json := Json.null
  followers : List Json := []
  sourceHash : Json := Json.null
deriving Repr, DecidableEq

/-- The summary-statistics dict accumulated by `_process_databases`. -/
structure Stats where
  total_databases : Nat := 0
  total_schemas : Nat := 0
  total_tables : Nat := 0
  total_columns : Nat := 0
deriving Repr, DecidableEq

/-- `MetadataSummary`. -/
structure MetadataSummary where
  total_databases : Nat := 0
  total_schemas : Nat := 0
  total_tables : Nat := 0
  total_columns : Nat := 0
  total_views : Nat := 0
  total_owners : Nat := 0
  total_tags : Nat := 0
  data_extraction_timestamp : String := ""
deriving Repr, DecidableEq

/-- `MessageResponse`. -/
structure MessageResponse where
  message : String
deriving Repr, DecidableEq

/-- `TableFilterInfo`: the filter echoed back by the table-listing endpoint. -/
structure TableFilterInfo where
  database_name : Option String := none
  schema_name : Option String := none
  include_columns : Bool := true
deriving Repr, DecidableEq

/-- `TablesResponse`. -/
structure TablesResponse where
  service_name : String
  filter : TableFilterInfo
  tables : List TableModel
  count : Nat
deriving Repr, DecidableEq

/-- `DatabaseMetadataResponse`. -/
structure DatabaseMetadataResponse where
  service : ServiceModel
  databases : List DatabaseModel
  summary : MetadataSummary
deriving Repr, DecidableEq

/-- Sequential effectful map, embedding a Python list comprehension over
`Except`-valued element processing: the first raised exception aborts. -/
def mapME (f : α → Except Err β) : List α → Except Err (List β)
  | [] => .ok []
  | x :: xs =>
    match f x with
    | .error e => .error e
    | .ok y =>
      match mapME f xs with
      | .error e => .error e
      | .ok ys => .ok (y :: ys)

/-- Embeds the `TagModel(...)` construction used at every level
(src/temp.py, e.g. lines 45-51): `tagFQN` defaults to the empty string,
`description` and `source` to `None`. -/
def create_tag_model (tag : Json) : Except Err TagModel := do
  let tagFQN ← tag.pyGet "tagFQN" (.str "")
  let description ← tag.pyGet1 "description"
  let source ← tag.pyGet1 "source"
  pure { tagFQN, description, source }

/-- Embeds the `OwnerModel(...)` construction used at every level
(src/temp.py, e.g. lines 131-137). -/
def create_owner_model (owner : Json) : Except Err OwnerModel := do
  let id ← owner.pyGet1 "id"
  let name ← owner.pyGet "name" (.str "")
  let type ← owner.pyGet "type" (.str "")
  let fullyQualifiedName ← owner.pyGet1 "fullyQualifiedName"
  pure { id, name, type, fullyQualifiedName }

/-- Embeds a `[TagModel(...) for tag in v]` comprehension. -/
def tags_of (v : Json) : Except Err (List TagModel) := do
  mapME create_tag_model (← v.pyIter)

/-- Embeds an `[OwnerModel(...) for owner in v]` comprehension. -/
def owners_of (v : Json) : Except Err (List OwnerModel) := do
  mapME create_owner_model (← v.pyIter)

/-- Embeds a `[d.get("name", "") for d in v]` comprehension (domains,
dataProducts, followers). -/
def names_of (v : Json) : Except Err (List Json) := do
  mapME (fun d => d.pyGet "name" (.str "")) (← v.pyIter)

mutual

/-- Embeds `_create_column_model` (src/temp.py lines 34-67).  A non-dict
input raises `AttributeError` at the first `.get`.  The fallible steps are
evaluated in the order of the Python keyword arguments: `dataTypeDisplay`
(whose fallback `.get` on a non-dict type descriptor can raise), then the
`tags` comprehension, then the recursive `children` comprehension. -/
def create_column_model : Json → Except Err ColumnModel
  | .obj fs =>
    let dti := lookupD fs "dataType" (.obj [])
    let dtd0 := lookupD fs "dataTypeDisplay" .null
    match (if dtd0.truthy then .ok dtd0 else dti.pyGet1 "displayName" : Except Err Json) with
    | .error e => .error e
    | .ok dataTypeDisplay =>
      match tags_of (lookupD fs "tags" (.arr [])) with
      | .error e => .error e
      | .ok tags =>
        match children_of fs with
        | .error e => .error e
        | .ok children =>
          .ok (ColumnModel.node
            { name := lookupD fs "name" (.str "")
              dataType :=
                match dti with
                | .obj dfs => lookupD dfs "name" .null
                | _ => lookupD fs "dataType" .null
              dataTypeDisplay := dataTypeDisplay
              description := lookupD fs "description" .null
              ordinalPosition := lookupD fs "ordinalPosition" .null
              constraint :=
                match lookupD fs "constraint" .null with
                | .obj cfs => lookupD cfs "name" .null
                | v => v
              tags := tags
              nullable := lookupD fs "nullable" .null
              defaultValue := lookupD fs "defaultValue" .null
              precision :=
                match dti with
                | .obj dfs => lookupD dfs "precision" .null
                | _ => .null
              scale :=
                match dti with
                | .obj dfs => lookupD dfs "scale" .null
                | _ => .null
              maxLength :=
                match dti with
                | .obj dfs => lookupD dfs "length" .null
                | _ => .null
              arrayDataType := lookupD fs "arrayDataType" .null
              dataLength := lookupD fs "dataLength" .null
              jsonSchema := lookupD fs "jsonSchema" .null
              fullyQualifiedName := lookupD fs "fullyQualifiedName" .null
              customMetrics := lookupD fs "customMetrics" .null }
            children)
  | _ => .error .attributeError

/-- The `column_data.get("children", [])` lookup of `_create_column_model`,
walking the field list structurally so the recursion stays well-founded. -/
def children_of : List (String × Json) → Except Err (List ColumnModel)
  | [] => .ok []
  | (k, v) :: rest => if k = "children" then child_list v else children_of rest

/-- Iterating the `children` value.  A list recurses element-wise; iterating
a non-empty string or dict yields strings, whose first `.get` in
`_create_column_model` raises `AttributeError` immediately (folded in here);
other values raise `TypeError` when iterated. -/
def child_list : Json → Except Err (List ColumnModel)
  | .arr xs => create_column_list xs
  | .str s => if s.data.isEmpty then .ok [] else .error .attributeError
  | .obj gs => if gs.isEmpty then .ok [] else .error .attributeError
  | _ => .error .typeError

/-- The `[_create_column_model(child) for child in ...]` comprehension. -/
def create_column_list : List Json → Except Err (List ColumnModel)
  | [] => .ok []
  | c :: cs =>
    match create_column_model c with
    | .error e => .error e
    | .ok m =>
      match create_column_list cs with
      | .error e => .error e
      | .ok ms => .ok (m :: ms)

end

/-- Embeds `_create_table_model` (src/temp.py lines 117-176).  The column
list is built first (lines 120-122); the remaining fallible keyword
arguments follow in source order. -/
def create_table_model (flags : Flags) (table_data : Json) : Except Err TableModel :=
  match table_data with
  | .obj fs => do
    let columnsVal := lookupD fs "columns" (.arr [])
    let columns ← do
      let cols ← columnsVal.pyIter
      create_column_list cols
    let owners ← owners_of (lookupD fs "owners" (.arr []))
    let tags ← tags_of (lookupD fs "tags" (.arr []))
    let column_count ← columnsVal.pyLen
    let tp := lookupD fs "tablePartition" .null
    let partitionKeys ← if tp.truthy then tp.pyGet1 "columns" else pure Json.null
    let loc := lookupD fs "location" .null
    let location ← if loc.truthy then loc.pyGet1 "name" else pure Json.null
    let domains ← names_of (lookupD fs "domains" (.arr []))
    let dataProducts ← names_of (lookupD fs "dataProducts" (.arr []))
    let ts := lookupD fs "testSuite" .null
    let testSuite ← if ts.truthy then ts.pyGet1 "name" else pure Json.null
    let followers ← names_of (lookupD fs "followers" (.arr []))
    pure
      { id := lookupD fs "id" (.str "")
        name := lookupD fs "name" (.str "")
        fullyQualifiedName := lookupD fs "fullyQualifiedName" (.str "")
        tableType := lookupD fs "tableType" .null
        description := lookupD fs "description" .null
        displayName := lookupD fs "displayName" .null
        owners := owners
        tags := tags
        columns := columns
        column_count := column_count
        tableConstraints := lookupD fs "tableConstraints" .null
        partitionKeys := partitionKeys
        distributionKeys := lookupD fs "distributionKey" .null
        sortKeys := lookupD fs "sortKey" .null
        tableProfile := if flags.include_table_profiles then lookupD fs "tableProfile" .null else .null
        sampleData := if flags.include_sample_data then lookupD fs "sampleData" .null else .null
        usageSummary := lookupD fs "usageSummary" .null
        lineage := if flags.include_lineage then lookupD fs "lineage" .null else .null
        schemaDefinition := lookupD fs "schemaDefinition" .null
        location := location
        locationPath := lookupD fs "locationPath" .null
        fileFormat := lookupD fs "fileFormat" .null
        retentionPeriod := lookupD fs "retentionPeriod" .null
        sourceUrl := lookupD fs "sourceUrl" .null
        domains := domains
        dataProducts := dataProducts
        lifeCycle := lookupD fs "lifeCycle" .null
        certification := lookupD fs "certification" .null
        votes := lookupD fs "votes" .null
        testSuite := testSuite
        queries := lookupD fs "queries" .null
        customMetrics := lookupD fs "customMetrics" .null
        sourceHash := lookupD fs "sourceHash" .null
        processedLineage := lookupD fs "processedLineage" .null
        joins := lookupD fs "joins" .null
        followers := followers }
  | _ => .error .attributeError

/-- Embeds `_create_service_model` (src/temp.py lines 221-257). -/
def create_service_model (service_data : Json) : Except Err ServiceModel :=
  match service_data with
  | .obj fs => do
    let owners ← owners_of (lookupD fs "owners" (.arr []))
    let tags ← tags_of (lookupD fs "tags" (.arr []))
    let domains ← names_of (lookupD fs "domains" (.arr []))
    let dataProducts ← names_of (lookupD fs "dataProducts" (.arr []))
    let followers ← names_of (lookupD fs "followers" (.arr []))
    pure
      { id := lookupD fs "id" (.str "")
        name := lookupD fs "name" (.str "")
        serviceType := lookupD fs "serviceType" (.str "")
        description := lookupD fs "description" .null
        displayName := lookupD fs "displayName" .null
        fullyQualifiedName := lookupD fs "fullyQualifiedName" (.str "")
        owners := owners
        tags := tags
        connection := lookupD fs "connection" .null
        version := lookupD fs "version" .null
        ingestionSchedule := lookupD fs "ingestionSchedule" .null
        sourceUrl := lookupD fs "sourceUrl" .null
        domains := domains
        dataProducts := dataProducts
        lifeCycle := lookupD fs "lifeCycle" .null
        certification := lookupD fs "certification" .null
        votes := lookupD fs "votes" .null
        followers := followers
        sourceHash := lookupD fs "sourceHash" .null }
  | _ => .error .attributeError

/-- Embeds `_fetch_service_metadata` (src/temp.py lines 70-89).
`raise_for_status()` raises `requests.HTTPError` for any 4xx/5xx status,
which the function catches and converts to an `HTTPException(500)`; only a
non-200 status outside the 4xx/5xx range reaches the 404 branch. -/
def fetch_service_metadata (service_name : String) (r : Response) : Except HTTPException Json :=
  if 400 ≤ r.status ∧ r.status < 600 then
    .error ⟨500, "Failed to fetch service metadata"⟩
  else if r.status ≠ 200 then
    .error ⟨404, "Service '" ++ service_name ++ "' not found"⟩
  else
    .ok r.body

/-- Embeds `_fetch_detailed_table_metadata` (src/temp.py lines 92-114): a
200 response yields its body, any other status yields `none` (logged
warning), and any exception during the call also yields `none`. -/
def fetch_detailed_table_metadata (o : Upstream) (flags : Flags) (table_id : Json) : Option Json :=
  match o.tableDetail table_id flags with
  | .fault => none
  | .resp r => if r.status = 200 then some r.body else none

/-- The per-table loop body of `_process_database_tables` (src/temp.py lines
202-216): start from the basic listing record, attempt enrichment when the
record carries a truthy id, and use the enriched record only when the fetch
returned a truthy body. -/
def process_table_entry (o : Upstream) (flags : Flags) (table : Json) : Except Err TableModel := do
  let table_id ← table.pyGet1 "id"
  let detailed_table :=
    if table_id.truthy then
      match fetch_detailed_table_metadata o flags table_id with
      | some d => if d.truthy then d else table
      | none => table
    else table
  create_table_model flags detailed_table

/-- Embeds `_process_database_tables` (src/temp.py lines 179-218): fetch the
table listing for a schema; a non-200 status yields `([], 0)` with a logged
warning; otherwise each listed table is processed in order and the returned
count is the length of the raw listing. -/
def process_database_tables (o : Upstream) (flags : Flags) (schema_data : Json) :
    Except Err (List TableModel × Nat) := do
  let fqn ← schema_data.pyGet1 "fullyQualifiedName"
  let r := o.tablesResp fqn
  if r.status ≠ 200 then
    pure ([], 0)
  else do
    let tables ← (← r.body.pyGet "data" (.arr [])).pyIter
    let tables_list ← mapME (process_table_entry o flags) tables
    pure (tables_list, tables.length)

/-- The per-schema loop body of `_process_database_schemas` (src/temp.py
lines 376-408). -/
def process_schema_entry (o : Upstream) (flags : Flags) (schema : Json) : Except Err SchemaModel := do
  let (tables_list, table_count) ← process_database_tables o flags schema
  match schema with
  | .obj fs => do
    let owners ← owners_of (lookupD fs "owners" (.arr []))
    let tags ← tags_of (lookupD fs "tags" (.arr []))
    pure
      { id := lookupD fs "id" (.str "")
        name := lookupD fs "name" (.str "")
        fullyQualifiedName := lookupD fs "fullyQualifiedName" (.str "")
        description := lookupD fs "description" .null
        tables := tables_list
        table_count := table_count
        owners := owners
        tags := tags
        retentionPeriod := lookupD fs "retentionPeriod" .null }
  | _ => .error .attributeError

/-- Embeds `_process_database_schemas` (src/temp.py lines 354-410): fetch
the schema listing for a database; a non-200 status yields `[]` with a
logged warning; otherwise each listed schema is processed in order. -/
def process_database_schemas (o : Upstream) (flags : Flags) (database_data : Json) :
    Except Err (List SchemaModel) := do
  let fqn ← database_data.pyGet1 "fullyQualifiedName"
  let r := o.schemasResp fqn
  if r.status ≠ 200 then
    pure []
  else do
    let schemas ← (← r.body.pyGet "data" (.arr [])).pyIter
    mapME (process_schema_entry o flags) schemas

/-- The per-database column total `sum(len(table.columns) for schema in
schemas_list for table in schema.tables)` (src/temp.py line 303). -/
def db_column_count (schemas_list : List SchemaModel) : Nat :=
  (schemas_list.map (fun s => (s.tables.map (fun t => t.columns.length)).sum)).sum

/-- The per-database loop body of `_process_databases` (src/temp.py lines
285-342). -/
def process_database_entry (o : Upstream) (flags : Flags) (database : Json) :
    Except Err DatabaseModel :=
  match database with
  | .obj fs => do
    let db_owners ← owners_of (lookupD fs "owners" (.arr []))
    let schemas_list ← process_database_schemas o flags database
    let db_table_count := (schemas_list.map (·.table_count)).sum
    let tags ← tags_of (lookupD fs "tags" (.arr []))
    let loc := lookupD fs "location" .null
    let location ← if loc.truthy then loc.pyGet1 "name" else pure loc
    let dataProducts ← names_of (lookupD fs "dataProducts" (.arr []))
    let domains ← names_of (lookupD fs "domains" (.arr []))
    let followers ← names_of (lookupD fs "followers" (.arr []))
    pure
      { id := lookupD fs "id" (.str "")
        name := lookupD fs "name" (.str "")
        fullyQualifiedName := lookupD fs "fullyQualifiedName" (.str "")
        description := lookupD fs "description" .null
        owners := db_owners
        schemas := schemas_list
        schema_count := schemas_list.length
        table_count := db_table_count
        tags := tags
        location := location
        databaseVersion := lookupD fs "version" .null
        dataProducts := dataProducts
        usageSummary := lookupD fs "usageSummary" .null
        retentionPeriod := lookupD fs "retentionPeriod" .null
        sourceUrl := lookupD fs "sourceUrl" .null
        domains := domains
        votes := lookupD fs "votes" .null
        lifeCycle := lookupD fs "lifeCycle" .null
        certification := lookupD fs "certification" .null
        followers := followers
        sourceHash := lookupD fs "sourceHash" .null
        default := lookupD fs "default" .null }
  | _ => .error .attributeError

/-- Embeds `_process_databases` (src/temp.py lines 260-351).  The databases
listing calls `raise_for_status()`, so a 4xx/5xx status raises
`requests.HTTPError` (fatal to the request), unlike the deeper listings.
The in-loop total accumulators are recovered from the materialized models,
which agrees with the source in the successful case. -/
def process_databases (o : Upstream) (flags : Flags) (service_name : String) :
    Except Err (List DatabaseModel × Stats) := do
  let r := o.databasesResp service_name
  if 400 ≤ r.status ∧ r.status < 600 then
    .error (.httpError r.status)
  else do
    let databases ← (← r.body.pyGet "data" (.arr [])).pyIter
    let databases_list ← mapME (process_database_entry o flags) databases
    pure (databases_list,
      { total_databases := databases.length
        total_schemas := (databases_list.map (·.schemas.length)).sum
        total_tables := (databases_list.map (·.table_count)).sum
        total_columns := (databases_list.map (fun db => db_column_count db.schemas)).sum })

/-- The view test of `_create_metadata_summary` (src/temp.py line 421):
`table.tableType and 'view' in table.tableType.lower()`.  A truthy non-string
`tableType` raises `AttributeError` at `.lower()`. -/
def count_views_table (t : TableModel) : Except Err Nat :=
  if t.tableType.truthy then
    match t.tableType with
    | .str s => .ok (if pyContains (pyLower s) "view" then 1 else 0)
    | _ => .error .attributeError
  else .ok 0

/-- Effectful sum over a list. -/
def sumME (f : α → Except Err Nat) : List α → Except Err Nat
  | [] => .ok 0
  | x :: xs =>
    match f x with
    | .error e => .error e
    | .ok n =>
      match sumME f xs with
      | .error e => .error e
      | .ok m => .ok (n + m)

/-- `total_views` (src/temp.py lines 417-422). -/
def count_views (dbs : List DatabaseModel) : Except Err Nat :=
  sumME (fun db => sumME (fun sch => sumME count_views_table sch.tables) db.schemas) dbs

/-- The truthy owner names of a list of owners (`owner.name for owner in os
if owner.name`). -/
def owner_names (os : List OwnerModel) : List Json :=
  (os.map (·.name)).filter Json.truthy

/-- The truthy tag FQNs of a list of tags (`tag.tagFQN for tag in ts if
tag.tagFQN`). -/
def tag_fqns (ts : List TagModel) : List Json :=
  (ts.map (·.tagFQN)).filter Json.truthy

/-- The owner-name values added to `all_owners`, in collection order
(src/temp.py lines 429, 434, 438, 442): service, then per database its
owners, per schema its owners, per table its owners. -/
def all_owner_values (service_model : ServiceModel) (dbs : List DatabaseModel) : List Json :=
  owner_names service_model.owners ++
    (dbs.map (fun db =>
      owner_names db.owners ++
        (db.schemas.map (fun sch =>
          owner_names sch.owners ++
            (sch.tables.map (fun t => owner_names t.owners)).flatten)).flatten)).flatten

/-- The tag-FQN values added to `all_tags`, in collection order (src/temp.py
lines 430, 435, 439, 443, 446-447): service, databases, schemas, tables, and
the top-level columns of each table. -/
def all_tag_values (service_model : ServiceModel) (dbs : List DatabaseModel) : List Json :=
  tag_fqns service_model.tags ++
    (dbs.map (fun db =>
      tag_fqns db.tags ++
        (db.schemas.map (fun sch =>
          tag_fqns sch.tags ++
            (sch.tables.map (fun t =>
              tag_fqns t.tags ++
                (t.columns.map (fun c => tag_fqns c.attrs.tags)).flatten)).flatten)).flatten)).flatten

/-- Adding one value to a Python set: list/dict values are unhashable and
raise `TypeError`. -/
def set_insert (s : Finset Json) (v : Json) : Except Err (Finset Json) :=
  match v with
  | .arr _ => .error .typeError
  | .obj _ => .error .typeError
  | _ => .ok (insert v s)

/-- Folding a value sequence into a Python set. -/
def build_set (s : Finset Json) : List Json → Except Err (Finset Json)
  | [] => .ok s
  | v :: vs =>
    match set_insert s v with
    | .error e => .error e
    | .ok s2 => build_set s2 vs

/-- Embeds `_create_metadata_summary` (src/temp.py lines 413-458).  The
extraction timestamp (`datetime.utcnow().isoformat()`) is passed in as
`now`; the source appends a trailing Z. -/
def create_metadata_summary (now : String) (service_model : ServiceModel)
    (databases_list : List DatabaseModel) (summary_stats : Stats) :
    Except Err MetadataSummary := do
  let total_views ← count_views databases_list
  let all_owners ← build_set ∅ (all_owner_values service_model databases_list)
  let all_tags ← build_set ∅ (all_tag_values service_model databases_list)
  pure
    { total_databases := summary_stats.total_databases
      total_schemas := summary_stats.total_schemas
      total_tables := summary_stats.total_tables
      total_columns := summary_stats.total_columns
      total_views := total_views
      total_owners := all_owners.card
      total_tags := all_tags.card
      data_extraction_timestamp := now ++ "Z" }

/-- Embeds `extract_database_metadata` (src/temp.py lines 593-679): the
service fetch is the fatal path; an uncaught `requests.HTTPError` (from the
databases listing) or any other internal exception is converted into an
`HTTPException(500)`. -/
def extract_database_metadata (o : Upstream) (service_name : String) (flags : Flags)
    (now : String) : Except HTTPException DatabaseMetadataResponse := do
  let service_data ← fetch_service_metadata service_name (o.serviceResp service_name)
  match (do
      let service_model ← create_service_model service_data
      let (databases_list, summary_stats) ← process_databases o flags service_name
      let summary ← create_metadata_summary now service_model databases_list summary_stats
      pure (DatabaseMetadataResponse.mk service_model databases_list summary) :
      Except Err DatabaseMetadataResponse) with
  | .ok resp => .ok resp
  | .error (.httpError _) => .error ⟨500, "Failed to extract metadata"⟩
  | .error _ => .error ⟨500, "Failed to extract metadata"⟩

/-- The single filter parameter sent to `GET /tables` by the table-listing
endpoint (src/temp.py lines 710-717). -/
inductive TablesQuery where
  | databaseSchema (fqn : String)
  | database (fqn : String)
  | service (name : String)
deriving Repr, DecidableEq

/-- Python truthiness of an optional string query parameter. -/
def opt_truthy : Option String → Bool
  | none => false
  | some s => s ≠ ""

/-- The filter-construction logic of `get_service_tables` (src/temp.py lines
710-717): both names truthy → `databaseSchema`; database only → `database`;
otherwise → `service`. -/
def build_tables_query (service_name : String) (database_name schema_name : Option String) :
    TablesQuery :=
  if opt_truthy database_name && opt_truthy schema_name then
    .databaseSchema (service_name ++ "." ++ database_name.getD "" ++ "." ++ schema_name.getD "")
  else if opt_truthy database_name then
    .database (service_name ++ "." ++ database_name.getD "")
  else
    .service service_name

/-- Oracle for the single outbound call of the table-listing endpoint,
keyed by the constructed filter. -/
structure TablesUpstream where
  resp : TablesQuery → Response

/-- The inline `ColumnModel(...)` construction of `get_service_tables`
(src/temp.py lines 740-753): `dataType` and `constraint` are passed through
unchanged and no structured type-descriptor resolution is applied; the
remaining fields take their defaults. -/
def flat_column_model (col : Json) : Except Err ColumnModel :=
  match col with
  | .obj fs => do
    let tags ← tags_of (lookupD fs "tags" (.arr []))
    pure (ColumnModel.node
      { name := lookupD fs "name" (.str "")
        dataType := lookupD fs "dataType" .null
        dataTypeDisplay := lookupD fs "dataTypeDisplay" .null
        description := lookupD fs "description" .null
        ordinalPosition := lookupD fs "ordinalPosition" .null
        constraint := lookupD fs "constraint" .null
        tags := tags }
      [])
  | _ => .error .attributeError

/-- The per-table loop body of `get_service_tables` (src/temp.py lines
735-784): columns are materialized only when `include_columns` is set and
the raw column list is truthy, while `column_count` is always the length of
the raw column list. -/
def flat_table_model (include_columns : Bool) (table : Json) : Except Err TableModel :=
  match table with
  | .obj fs => do
    let columns ←
      if include_columns && (lookupD fs "columns" .null).truthy then do
        let cols ← (lookupD fs "columns" (.arr [])).pyIter
        mapME flat_column_model cols
      else pure []
    let owners ← owners_of (lookupD fs "owners" (.arr []))
    let tags ← tags_of (lookupD fs "tags" (.arr []))
    let column_count ← (lookupD fs "columns" (.arr [])).pyLen
    pure
      { id := lookupD fs "id" (.str "")
        name := lookupD fs "name" (.str "")
        fullyQualifiedName := lookupD fs "fullyQualifiedName" (.str "")
        tableType := lookupD fs "tableType" .null
        description := lookupD fs "description" .null
        displayName := lookupD fs "displayName" .null
        owners := owners
        tags := tags
        columns := columns
        column_count := column_count }
  | _ => .error .attributeError

/-- Embeds `get_service_tables` (src/temp.py lines 682-810): one filtered
listing call (`raise_for_status`, so a 4xx/5xx is converted to a 500), the
filter echoed back verbatim, and `count` set to the length of the
materialized table list. -/
def get_service_tables (o : TablesUpstream) (service_name : String)
    (database_name schema_name : Option String) (include_columns : Bool) :
    Except HTTPException TablesResponse :=
  let q := build_tables_query service_name database_name schema_name
  let r := o.resp q
  if 400 ≤ r.status ∧ r.status < 600 then
    .error ⟨500, "Failed to list tables"⟩
  else
    match (do
        let tables ← (← r.body.pyGet "data" (.arr [])).pyIter
        mapME (flat_table_model include_columns) tables : Except Err (List TableModel)) with
    | .error _ => .error ⟨500, "Failed to list tables"⟩
    | .ok tables_list =>
      .ok
        { service_name := service_name
          filter :=
            { database_name := database_name
              schema_name := schema_name
              include_columns := include_columns }
          tables := tables_list
          count := tables_list.length }

/-- An owner reference in the create-service request body.  Modelled from
the spec: the payload schema lives in `app.schemas`, outside this repository
snapshot. -/
structure PayloadOwner where
  name : String
  type : String
deriving Repr, DecidableEq

/-- `DatabaseServicePayload`.  Modelled from the spec: body fields are name,
serviceType, and optional description, displayName, connection config, tags
and owners. -/
structure DatabaseServicePayload where
  name : String
  serviceType : String
  description : Option String := none
  displayName : Option String := none
  connection : Json := Json.null
  tags : Option (List String) := none
  owners : Option (List PayloadOwner) := none
deriving Repr, DecidableEq

/-- The fixed allow-list of engine types (src/temp.py lines 478-482). -/
def valid_service_types : List String :=
  ["MySQL", "PostgreSQL", "BigQuery", "Snowflake", "Redshift",
   "Oracle", "MSSQL", "MongoDB", "Cassandra", "Clickhouse",
   "Databricks", "Athena", "Hive", "Presto", "Trino"]

/-- Python truthiness of an optional string payload field. -/
def opt_str_truthy : Option String → Bool
  | none => false
  | some s => s ≠ ""

/-- Python truthiness of an optional list payload field. -/
def opt_list_truthy : Option (List α) → Bool
  | none => false
  | some l => !l.isEmpty

/-- The service-creation request body built at src/temp.py lines 508-536:
name, serviceType and wrapped connection config, with description,
displayName, tags and owners appended when truthy. -/
def build_service_request (payload : DatabaseServicePayload) : Json :=
  let base := [("name", Json.str payload.name),
               ("serviceType", Json.str payload.serviceType),
               ("connection", Json.obj [("config", payload.connection)])]
  let base := if opt_str_truthy payload.description then
      base ++ [("description", Json.str (payload.description.getD ""))] else base
  let base := if opt_str_truthy payload.displayName then
      base ++ [("displayName", Json.str (payload.displayName.getD ""))] else base
  let base := if opt_list_truthy payload.tags then
      base ++ [("tags", Json.arr ((payload.tags.getD []).map
        (fun t => Json.obj [("tagFQN", Json.str t)])))] else base
  let base := if opt_list_truthy payload.owners then
      base ++ [("owners", Json.arr ((payload.owners.getD []).map
        (fun ow => Json.obj [("name", Json.str ow.name), ("type", Json.str ow.type)])))] else base
  Json.obj base

/-- Outcome of the existence pre-check `session.get(...)` (src/temp.py line
495): a response, or a `requests.HTTPError` raised by a session configured
to raise on error statuses (the `except` at line 504 only catches that
class). -/
inductive ProbeOutcome where
  | resp (r : Response)
  | raisedHTTPError
deriving Repr, DecidableEq

/-- Oracle for the two outbound calls of the create-service endpoint. -/
structure CreateUpstream where
  /-- `GET /services/databaseServices/name/{payload.name}`. -/
  probe : ProbeOutcome
  /-- `POST /services/databaseServices` with the built request body. -/
  post : Json → Response

/-- The creation attempt of `create_database_service` (src/temp.py lines
543-584): `raise_for_status` turns a 4xx/5xx into `requests.HTTPError`; a
409 is translated into the already-exists success message; other error
statuses become an `HTTPException(500)`. -/
def proceed_creation (o : CreateUpstream) (payload : DatabaseServicePayload) :
    Except HTTPException MessageResponse :=
  let r := o.post (build_service_request payload)
  if 400 ≤ r.status ∧ r.status < 600 then
    if r.status = 409 then
      .ok ⟨"Database service '" ++ payload.name ++ "' already exists in OpenMetadata"⟩
    else
      .error ⟨500, "OpenMetadata service creation failed"⟩
  else
    match r.body.pyGet1 "name", r.body.pyGet1 "id" with
    | .ok namev, .ok idv =>
      .ok ⟨"Database service '" ++ pyStr namev ++
        "' created successfully in OpenMetadata with ID: " ++ pyStr idv⟩
    | _, _ => .error ⟨500, "Internal server error"⟩

/-- Embeds `create_database_service` (src/temp.py lines 461-590): validate
the service type, probe for an existing service of the same name (a 200
probe short-circuits with an already-exists success; a raised
`requests.HTTPError` is treated as absence), then attempt creation. -/
def create_database_service (o : CreateUpstream) (payload : DatabaseServicePayload) :
    Except HTTPException MessageResponse :=
  if payload.serviceType ∉ valid_service_types then
    .error ⟨400, "Invalid serviceType. Must be one of: " ++
      String.intercalate ", " valid_service_types⟩
  else
    match o.probe with
    | .resp r =>
      if r.status = 200 then
        match r.body.pyGet1 "id" with
        | .ok idv =>
          .ok ⟨"Database service '" ++ payload.name ++
            "' already exists in OpenMetadata with ID: " ++ pyStr idv⟩
        | .error _ => .error ⟨500, "Internal server error"⟩
      else proceed_creation o payload
    | .raisedHTTPError => proceed_creation o payload

/-- Modelled from the spec: the upstream catalog state for service creation
is the set of registered service names; creation is idempotent-by-name and a
duplicate creation attempt yields a 409 conflict.  The catalog itself is the
third-party collaborator, not code of this repository. -/
structure CatalogState where
  services : List String
deriving Repr, DecidableEq

/-- Modelled from the spec: the existence probe answers 200 with the stored
record when the name is registered, 404 otherwise. -/
def probe_of (st : CatalogState) (name : String) : ProbeOutcome :=
  .resp (if name ∈ st.services then ⟨200, Json.obj [("id", Json.null)]⟩
         else ⟨404, Json.obj []⟩)

/-- Modelled from the spec: posting a creation request answers 409 when the
name is registered, 201 with the created record otherwise. -/
def post_of (st : CatalogState) (name : String) : Json → Response :=
  fun _ =>
    if name ∈ st.services then ⟨409, Json.obj []⟩
    else ⟨201, Json.obj [("name", Json.str name), ("id", Json.null)]⟩

/-- The create-service oracle induced by a catalog state. -/
def upstream_of (st : CatalogState) (name : String) : CreateUpstream :=
  ⟨probe_of st name, post_of st name⟩

/-- The catalog state after a create-service call for `name`. -/
def after_create (st : CatalogState) (name : String) : CatalogState :=
  if name ∈ st.services then st else ⟨name :: st.services⟩

/-- A column with its recursive children removed (tags and all other
attributes kept). -/
def strip_children_column (c : ColumnModel) : ColumnModel :=
  match c with
  | .node a _ => .node a []

/-- A table whose columns lose their nested children. -/
def strip_children_table (t : TableModel) : TableModel :=
  { t with columns := t.columns.map strip_children_column }

/-- A schema whose tables lose their nested column children. -/
def strip_children_schema (s : SchemaModel) : SchemaModel :=
  { s with tables := s.tables.map strip_children_table }

/-- A database whose schemas lose their nested column children. -/
def strip_children_db (d : DatabaseModel) : DatabaseModel :=
  { d with schemas := d.schemas.map strip_children_schema }

/-- A database tree with every nested column child (any depth) removed. -/
def strip_column_children (dbs : List DatabaseModel) : List DatabaseModel :=
  dbs.map strip_children_db

/-- All owner-name occurrences in the tree walked by
`_create_metadata_summary`, unfiltered (including empty and falsy names). -/
def owner_name_occurrences (service_model : ServiceModel) (dbs : List DatabaseModel) : List Json :=
  service_model.owners.map (·.name) ++
    (dbs.map (fun db =>
      db.owners.map (·.name) ++
        (db.schemas.map (fun sch =>
          sch.owners.map (·.name) ++
            (sch.tables.map (fun t => t.owners.map (·.name))).flatten)).flatten)).flatten

/-- All tag-FQN occurrences in the tree walked by
`_create_metadata_summary`, unfiltered: service, databases, schemas, tables
and the top-level columns of each table. -/
def tag_fqn_occurrences (service_model : ServiceModel) (dbs : List DatabaseModel) : List Json :=
  service_model.tags.map (·.tagFQN) ++
    (dbs.map (fun db =>
      db.tags.map (·.tagFQN) ++
        (db.schemas.map (fun sch =>
          sch.tags.map (·.tagFQN) ++
            (sch.tables.map (fun t =>
              t.tags.map (·.tagFQN) ++
                (t.columns.map (fun c => c.attrs.tags.map (·.tagFQN))).flatten)).flatten)).flatten)).flatten

/-- A service record with one extra owner appended. -/
def with_extra_owner (svc : ServiceModel) (ow : OwnerModel) : ServiceModel :=
  { svc with owners := svc.owners ++ [ow] }

/-- A service record with one extra tag appended. -/
def with_extra_tag (svc : ServiceModel) (tg : TagModel) : ServiceModel :=
  { svc with tags := svc.tags ++ [tg] }

theorem mapME_ok_length {f : α → Except Err β} :
    ∀ {xs : List α} {ys : List β}, mapME f xs = .ok ys → ys.length = xs.length := by
  intro xs
  induction xs with
  | nil => intro ys h; simp [mapME] at h; simp [← h]
  | cons x xs ih =>
    intro ys h
    simp only [mapME] at h
    split at h
    · exact absurd h (by simp)
    · split at h
      · exact absurd h (by simp)
      · cases h
        simp [ih (by assumption)]

theorem mapME_ok_mem {f : α → Except Err β} :
    ∀ {xs : List α} {ys : List β}, mapME f xs = .ok ys → ∀ y ∈ ys, ∃ x ∈ xs, f x = .ok y := by
  intro xs
  induction xs with
  | nil => intro ys h; simp [mapME] at h; subst h; simp
  | cons x xs ih =>
    intro ys h
    simp only [mapME] at h
    split at h
    · exact absurd h (by simp)
    · split at h
      · exact absurd h (by simp)
      · cases h
        intro y hy
        rcases List.mem_cons.mp hy with hy | hy
        · exact ⟨x, by simp, by simp [hy]; assumption⟩
        · rcases ih (by assumption) y hy with ⟨x2, hx2, hfx2⟩
          exact ⟨x2, by simp [hx2], hfx2⟩

theorem mapME_ok_mem_fwd {f : α → Except Err β} :
    ∀ {xs : List α} {ys : List β}, mapME f xs = .ok ys →
      ∀ x ∈ xs, ∀ {m : β}, f x = .ok m → m ∈ ys := by
  intro xs
  induction xs with
  | nil => intro ys _ x hx; simp at hx
  | cons a xs ih =>
    intro ys h x hx m hm
    simp only [mapME] at h
    split at h
    · exact absurd h (by simp)
    · split at h
      · exact absurd h (by simp)
      · cases h
        rcases List.mem_cons.mp hx with hx | hx
        · subst hx
          have : Except.ok (ε := Err) _ = Except.ok m := (by assumption : f x = _).symm.trans hm
          cases this
          simp
        · exact List.mem_cons_of_mem _ (ih (by assumption) x hx hm)

theorem create_column_list_eq_mapME :
    ∀ xs : List Json, create_column_list xs = mapME create_column_model xs := by
  intro xs
  induction xs with
  | nil => rfl
  | cons c cs ih =>
    simp only [create_column_list, mapME, ih]
    cases create_column_model c
    · rfl
    · cases mapME create_column_model cs <;> rfl

theorem create_column_list_ok_length :
    ∀ {xs : List Json} {ms : List ColumnModel},
      create_column_list xs = .ok ms → ms.length = xs.length := by
  intro xs ms h
  rw [create_column_list_eq_mapME] at h
  exact mapME_ok_length h

theorem create_column_model_str (s : String) :
    create_column_model (Json.str s) = .error .attributeError := rfl

theorem children_of_eq (fs : List (String × Json)) :
    children_of fs = child_list (lookupD fs "children" (.arr [])) := by
  induction fs with
  | nil => rfl
  | cons p rest ih =>
    obtain ⟨k, v⟩ := p
    by_cases hk : k = "children"
    · subst hk
      simp [children_of, lookupD, lookup?, List.find?]
    · simp [children_of, hk, ih, lookupD, lookup?, List.find?]

/-- C8: a failing service-identity fetch always aborts the request with a
structured error, but the response does NOT distinguish the not-found case:
an upstream 404 (service absent) is converted by the caught
`requests.HTTPError` into the same 500 response as a generic upstream 500,
because `raise_for_status()` fires before the `status != 200` branch that
was meant to produce the 404 response. -/
theorem c8_service_fetch_404_collapses_to_500 :
  fetch_service_metadata "orders" ⟨404, Json.null⟩ =
      .error ⟨500, "Failed to fetch service metadata"⟩
  ∧ fetch_service_metadata "orders" ⟨500, Json.null⟩ =
      .error ⟨500, "Failed to fetch service metadata"⟩ := ⟨rfl, rfl⟩

/-- C4: column normalization is not total.  On the well-formed flat-legacy
input with dataType equal to the string varchar and no dataTypeDisplay, the
unguarded fallback `data_type_info.get("displayName")` is applied to a
string and raises AttributeError; supplying a truthy dataTypeDisplay
short-circuits the fallback and the same record normalizes fine. -/
theorem c4_flat_data_type_raises :
  create_column_model (Json.obj [("dataType", Json.str "varchar")]) = .error .attributeError
  ∧ create_column_model (Json.obj [("dataType", Json.str "varchar"),
      ("dataTypeDisplay", Json.str "varchar")])
    = .ok (ColumnModel.node
        { dataType := Json.str "varchar", dataTypeDisplay := Json.str "varchar" } []) :=
  ⟨rfl, rfl⟩

/-- C1 (amended): below the databases level, a non-success listing response
is non-fatal — a schemas listing failure gives that database an empty schema
list and a tables listing failure gives that schema an empty table list,
each returned successfully so the rest of the traversal completes.  (The
databases listing itself is fatal; see the counterexample.) -/
theorem c1_sublisting_failures_nonfatal (o : Upstream) (flags : Flags)
    (dfs sfs : List (String × Json)) :
  ((o.schemasResp (lookupD dfs "fullyQualifiedName" Json.null)).status ≠ 200 →
     process_database_schemas o flags (Json.obj dfs) = .ok [])
  ∧ ((o.tablesResp (lookupD sfs "fullyQualifiedName" Json.null)).status ≠ 200 →
     process_database_tables o flags (Json.obj sfs) = .ok ([], 0)) := by
  constructor
  · intro h
    simp [process_database_schemas, Json.pyGet1, Json.pyGet, bind, Except.bind, h, pure, Except.pure]
  · intro h
    simp [process_database_tables, Json.pyGet1, Json.pyGet, bind, Except.bind, h, pure, Except.pure]

/-- An upstream fixture whose schemas and tables listings fail with a 503. -/
def c1_failing_upstream : Upstream :=
  { serviceResp := fun _ => ⟨200, Json.obj []⟩
    databasesResp := fun _ => ⟨200, Json.obj [("data", Json.arr [])]⟩
    schemasResp := fun _ => ⟨503, Json.null⟩
    tablesResp := fun _ => ⟨503, Json.null⟩
    tableDetail := fun _ _ => .fault }

theorem c1_sublisting_failures_nonfatal_witness :
  process_database_schemas c1_failing_upstream {} (Json.obj []) = .ok []
  ∧ process_database_tables c1_failing_upstream {} (Json.obj []) = .ok ([], 0) :=
  ⟨(c1_sublisting_failures_nonfatal c1_failing_upstream {} [] []).1 (by decide),
   (c1_sublisting_failures_nonfatal c1_failing_upstream {} [] []).2 (by decide)⟩

/-- An upstream fixture whose service fetch succeeds but whose databases
listing returns a 500. -/
def c1_upstream : Upstream :=
  { serviceResp := fun _ => ⟨200, Json.obj []⟩
    databasesResp := fun _ => ⟨500, Json.null⟩
    schemasResp := fun _ => ⟨200, Json.obj [("data", Json.arr [])]⟩
    tablesResp := fun _ => ⟨200, Json.obj [("data", Json.arr [])]⟩
    tableDetail := fun _ _ => .fault }

/-- C1 counterexample: the databases listing is also a listing call below the
service level, yet its non-success response is fatal — the whole request is
surfaced as a 500 error response instead of completing with an empty list,
because `_process_databases` calls `raise_for_status()` on it. -/
theorem c1_databases_listing_fatal_cex :
  extract_database_metadata c1_upstream "svc" {} "2026-10-12T00:00:00" =
    .error ⟨500, "Failed to extract metadata"⟩ := rfl

/-- C9: with both names supplied (non-empty), the upstream filter is the
single databaseSchema parameter with the dotted service.database.schema
value; with the database only it is the dotted database parameter; with
neither it is the service parameter; and any successful response echoes the
requested database name, schema name and include_columns verbatim. -/
theorem c9_tables_filter_construction (svc d s : String) (inc : Bool)
    (o : TablesUpstream) (dn sn : Option String) :
  (d ≠ "" → s ≠ "" →
    build_tables_query svc (some d) (some s) = .databaseSchema (svc ++ "." ++ d ++ "." ++ s))
  ∧ (d ≠ "" → build_tables_query svc (some d) none = .database (svc ++ "." ++ d))
  ∧ build_tables_query svc none none = .service svc
  ∧ (∀ resp, get_service_tables o svc dn sn inc = .ok resp →
      resp.filter = ⟨dn, sn, inc⟩ ∧ resp.service_name = svc) := by
  refine ⟨fun hd hs => ?_, fun hd => ?_, ?_, fun resp h => ?_⟩
  · simp [build_tables_query, opt_truthy, hd, hs]
  · simp [build_tables_query, opt_truthy, hd]
  · simp [build_tables_query, opt_truthy]
  · simp only [get_service_tables] at h
    split at h
    · exact absurd h (by simp)
    · split at h
      · exact absurd h (by simp)
      · cases h
        exact ⟨rfl, rfl⟩

theorem c9_tables_filter_construction_witness :
  ("db1" : String) ≠ "" ∧ ("s1" : String) ≠ "" ∧
    build_tables_query "svc" (some "db1") (some "s1") = .databaseSchema "svc.db1.s1" :=
  ⟨by decide, by decide,
   (c9_tables_filter_construction "svc" "db1" "s1" true ⟨fun _ => ⟨200, Json.obj []⟩⟩
      none none).1 (by decide) (by decide)⟩


/-- Folded lookup equation for `Json.pyGet` on a dict. -/
theorem Json.pyGet_obj (fs : List (String × Json)) (k : String) (d : Json) :
    Json.pyGet (Json.obj fs) k d = .ok (lookupD fs k d) := rfl

theorem process_database_tables_ok_200 (o : Upstream) (flags : Flags)
    (sfs : List (String × Json)) (ts : List Json)
    (h200 : (o.tablesResp (lookupD sfs "fullyQualifiedName" Json.null)).status = 200)
    (hdata : (o.tablesResp (lookupD sfs "fullyQualifiedName" Json.null)).body.pyGet "data"
      (.arr []) = .ok (Json.arr ts)) :
    process_database_tables o flags (Json.obj sfs) =
      match mapME (process_table_entry o flags) ts with
      | .error e => .error e
      | .ok lst => .ok (lst, ts.length) := by
  simp only [process_database_tables, Json.pyGet1, Json.pyGet_obj, bind, Except.bind]
  rw [if_neg (by simp [h200]), hdata]
  simp only [Json.pyIter]
  cases mapME (process_table_entry o flags) ts <;> rfl

/-- C5: the detail fetch yields no enrichment (not an error) on a non-success
status or a transport fault; in that case the table is built from its basic
listing record exactly as if no enrichment existed, and when the listing
succeeded the resulting model still appears in the output list, so an
enrichment failure never aborts the traversal. -/
theorem c5_enrichment_best_effort (o : Upstream) (flags : Flags) (tid table : Json)
    (sfs : List (String × Json)) :
  (∀ r, o.tableDetail tid flags = .resp r → r.status ≠ 200 →
     fetch_detailed_table_metadata o flags tid = none)
  ∧ (o.tableDetail tid flags = .fault → fetch_detailed_table_metadata o flags tid = none)
  ∧ (table.pyGet1 "id" = .ok tid → tid.truthy = true →
      fetch_detailed_table_metadata o flags tid = none →
      process_table_entry o flags table = create_table_model flags table)
  ∧ (∀ ts lst n m,
      (o.tablesResp (lookupD sfs "fullyQualifiedName" Json.null)).status = 200 →
      (o.tablesResp (lookupD sfs "fullyQualifiedName" Json.null)).body.pyGet "data" (.arr [])
        = .ok (Json.arr ts) →
      process_database_tables o flags (Json.obj sfs) = .ok (lst, n) →
      table ∈ ts → process_table_entry o flags table = .ok m → m ∈ lst) := by
  refine ⟨fun r hr h200 => ?_, fun hf => ?_, fun hid htr hnone => ?_,
    fun ts lst n m h200 hdata hp htab hok => ?_⟩
  · simp [fetch_detailed_table_metadata, hr, h200]
  · simp [fetch_detailed_table_metadata, hf]
  · simp [process_table_entry, hid, htr, hnone, bind, Except.bind]
  · rw [process_database_tables_ok_200 o flags sfs ts h200 hdata] at hp
    split at hp
    · exact absurd hp (by simp)
    · rename_i tl htl
      cases hp
      exact mapME_ok_mem_fwd htl table htab hok

/-- C7: with a valid serviceType, a create-service call against the modelled
catalog succeeds, and a second call with the same name returns the
already-exists success message; a 200 pre-check short-circuits (the result
does not depend on the creation call at all), and a 409 conflict during
creation is translated into the already-exists success message instead of an
error, whether the pre-check returned a non-200 response or raised. -/
theorem c7_create_service_idempotent (st : CatalogState) (p : DatabaseServicePayload)
    (hvalid : p.serviceType ∈ valid_service_types) :
  (∃ m, create_database_service (upstream_of st p.name) p = .ok m)
  ∧ create_database_service (upstream_of (after_create st p.name) p.name) p =
      .ok ⟨"Database service '" ++ p.name ++ "' already exists in OpenMetadata with ID: None"⟩
  ∧ (∀ (post1 post2 : Json → Response) (bfs : List (String × Json)),
      create_database_service ⟨.resp ⟨200, Json.obj bfs⟩, post1⟩ p =
        create_database_service ⟨.resp ⟨200, Json.obj bfs⟩, post2⟩ p)
  ∧ (∀ (r : Response) (post : Json → Response), r.status ≠ 200 →
      (post (build_service_request p)).status = 409 →
      create_database_service ⟨.resp r, post⟩ p =
        .ok ⟨"Database service '" ++ p.name ++ "' already exists in OpenMetadata"⟩)
  ∧ (∀ (post : Json → Response),
      (post (build_service_request p)).status = 409 →
      create_database_service ⟨.raisedHTTPError, post⟩ p =
        .ok ⟨"Database service '" ++ p.name ++ "' already exists in OpenMetadata"⟩) := by
  have hnot : ¬ p.serviceType ∉ valid_service_types := fun hc => hc hvalid
  refine ⟨?_, ?_, fun post1 post2 bfs => ?_, fun r post hr h409 => ?_, fun post h409 => ?_⟩
  · by_cases hmem : p.name ∈ st.services
    · exact ⟨⟨"Database service '" ++ p.name ++
          "' already exists in OpenMetadata with ID: " ++ pyStr Json.null⟩, by
        simp [create_database_service, hnot, upstream_of, probe_of, hmem, Json.pyGet1,
          Json.pyGet_obj, lookupD, lookup?]⟩
    · exact ⟨⟨"Database service '" ++ pyStr (Json.str p.name) ++
          "' created successfully in OpenMetadata with ID: " ++ pyStr Json.null⟩, by
        simp [create_database_service, hnot, upstream_of, probe_of, hmem, proceed_creation,
          post_of, Json.pyGet1, Json.pyGet_obj, lookupD, lookup?, pyStr]⟩
  · have hmem2 : p.name ∈ (after_create st p.name).services := by
      simp only [after_create]
      split <;> simp_all
    simp only [create_database_service, if_neg hnot, upstream_of, probe_of, if_pos hmem2,
      Json.pyGet1, Json.pyGet_obj]
    simp [lookupD, lookup?, pyStr]
    rw [String.append_assoc]
    rfl
  · simp [create_database_service, hnot]
  · simp only [create_database_service, if_neg hnot]
    rw [if_neg hr]
    simp only [proceed_creation]
    rw [h409]
    simp
  · simp only [create_database_service, if_neg hnot, proceed_creation]
    rw [h409]
    simp

/-- A basic table record carrying an id. -/
def c5_table : Json := Json.obj [("id", Json.str "t1"), ("name", Json.str "orders")]

/-- An upstream fixture whose per-table detail fetch fails with a 500. -/
def c5_upstream : Upstream :=
  { serviceResp := fun _ => ⟨200, Json.obj []⟩
    databasesResp := fun _ => ⟨200, Json.obj [("data", Json.arr [])]⟩
    schemasResp := fun _ => ⟨200, Json.obj [("data", Json.arr [])]⟩
    tablesResp := fun _ => ⟨200, Json.obj [("data", Json.arr [c5_table])]⟩
    tableDetail := fun _ _ => .resp ⟨500, Json.null⟩ }

theorem c5_enrichment_best_effort_witness :
  c5_table.pyGet1 "id" = .ok (Json.str "t1")
  ∧ (Json.str "t1").truthy = true
  ∧ fetch_detailed_table_metadata c5_upstream {} (Json.str "t1") = none
  ∧ process_table_entry c5_upstream {} c5_table = create_table_model {} c5_table :=
  ⟨rfl, rfl, rfl,
   (c5_enrichment_best_effort c5_upstream {} (Json.str "t1") c5_table []).2.2.1 rfl rfl rfl⟩

/-- A concrete create-service payload. -/
def c7_payload : DatabaseServicePayload :=
  { name := "svc1", serviceType := "MySQL" }

theorem c7_create_service_idempotent_witness :
  c7_payload.serviceType ∈ valid_service_types
  ∧ create_database_service (upstream_of (after_create ⟨[]⟩ "svc1") "svc1") c7_payload =
      .ok ⟨"Database service 'svc1' already exists in OpenMetadata with ID: None"⟩ :=
  ⟨by decide, (c7_create_service_idempotent ⟨[]⟩ c7_payload (by decide)).2.1⟩

/-- C3 (amended): in the metadata-extraction normalizer
`_create_column_model`, a structured type descriptor takes precedence — its
name becomes dataType and precision, scale and maxLength come from it — and
a flat string descriptor is passed through with the structured fields null;
constraint resolves with the same nested-name-over-flat-string precedence.
The flat table-listing endpoint, however, builds columns without this
resolution: dataType and constraint are copied verbatim and the structured
fields are never populated (see the counterexample). -/
theorem c3_column_type_precedence (fs : List (String × Json)) (m : ColumnModel)
    (gfs : List (String × Json)) (m2 : ColumnModel) :
  (create_column_model (Json.obj fs) = .ok m →
     (∀ dfs, lookup? fs "dataType" = some (Json.obj dfs) →
        m.attrs.dataType = lookupD dfs "name" Json.null
        ∧ m.attrs.precision = lookupD dfs "precision" Json.null
        ∧ m.attrs.scale = lookupD dfs "scale" Json.null
        ∧ m.attrs.maxLength = lookupD dfs "length" Json.null)
     ∧ (∀ s, lookup? fs "dataType" = some (Json.str s) →
        m.attrs.dataType = Json.str s
        ∧ m.attrs.precision = Json.null
        ∧ m.attrs.scale = Json.null
        ∧ m.attrs.maxLength = Json.null)
     ∧ (∀ cfs, lookup? fs "constraint" = some (Json.obj cfs) →
        m.attrs.constraint = lookupD cfs "name" Json.null)
     ∧ (∀ s, lookup? fs "constraint" = some (Json.str s) →
        m.attrs.constraint = Json.str s))
  ∧ (flat_column_model (Json.obj gfs) = .ok m2 →
      m2.attrs.dataType = lookupD gfs "dataType" Json.null
      ∧ m2.attrs.constraint = lookupD gfs "constraint" Json.null
      ∧ m2.attrs.precision = Json.null
      ∧ m2.attrs.scale = Json.null
      ∧ m2.attrs.maxLength = Json.null) := by
  constructor
  · intro h
    simp only [create_column_model] at h
    split at h
    · exact absurd h (by simp)
    · split at h
      · exact absurd h (by simp)
      · split at h
        · exact absurd h (by simp)
        · cases h
          refine ⟨fun dfs hdt => ?_, fun s hdt => ?_, fun cfs hc => ?_, fun s hc => ?_⟩
          · simp [ColumnModel.attrs, lookupD, hdt]
          · simp [ColumnModel.attrs, lookupD, hdt]
          · simp [ColumnModel.attrs, lookupD, hc]
          · simp [ColumnModel.attrs, lookupD, hc]
  · intro h
    simp only [flat_column_model, bind, Except.bind] at h
    split at h
    · exact absurd h (by simp)
    · cases h
      exact ⟨rfl, rfl, rfl, rfl, rfl⟩

def c3_upstream : TablesUpstream :=
  ⟨fun _ => ⟨200, Json.obj [("data", Json.arr [Json.obj [("columns",
      Json.arr [Json.obj [("dataType", Json.obj [("name", Json.str "INT")])]])]])]⟩⟩

theorem c3_flat_datatype_cex :
  (get_service_tables c3_upstream "svc" none none true).map
      (fun resp => resp.tables.map (fun t => t.columns.map (fun c => c.attrs.dataType)))
    = .ok [[Json.obj [("name", Json.str "INT")]]]
  ∧ Json.obj [("name", Json.str "INT")] ≠ Json.str "INT" :=
  ⟨rfl, by decide⟩

def c3_fs : List (String × Json) :=
  [("dataType", Json.obj [("name", Json.str "INT"), ("precision", Json.num 10)]),
   ("dataTypeDisplay", Json.str "int10")]

def c3_model : ColumnModel :=
  ColumnModel.node
    { dataType := Json.str "INT", dataTypeDisplay := Json.str "int10",
      precision := Json.num 10 } []

theorem c3_column_type_precedence_witness :
  create_column_model (Json.obj c3_fs) = .ok c3_model
  ∧ lookup? c3_fs "dataType" = some (Json.obj [("name", Json.str "INT"), ("precision", Json.num 10)])
  ∧ c3_model.attrs.dataType =
      lookupD [("name", Json.str "INT"), ("precision", Json.num 10)] "name" Json.null :=
  ⟨rfl, rfl,
   (((c3_column_type_precedence c3_fs c3_model [] c3_model).1 rfl).1
      [("name", Json.str "INT"), ("precision", Json.num 10)] rfl).1⟩

theorem create_column_list_strs :
    ∀ (l : List Json) {ms : List ColumnModel}, (∀ x ∈ l, ∃ s, x = Json.str s) →
      create_column_list l = .ok ms → l = [] ∧ ms = [] := by
  intro l ms hstr h
  cases l with
  | nil =>
    simp only [create_column_list] at h
    cases h
    exact ⟨rfl, rfl⟩
  | cons c cs =>
    rcases hstr c (by simp) with ⟨s, rfl⟩
    simp [create_column_list, create_column_model_str] at h

theorem create_table_model_count (flags : Flags) (td : Json) (m : TableModel)
    (h : create_table_model flags td = .ok m) : m.column_count = m.columns.length := by
  cases td with
  | obj fs =>
    simp only [create_table_model, bind, Except.bind, pure, Except.pure] at h
    cases hv : lookupD fs "columns" (Json.arr []) <;> rw [hv] at h <;>
      simp only [Json.pyIter, Json.pyLen] at h
    case null => exact absurd h (by simp)
    case bool b => exact absurd h (by simp)
    case num n => exact absurd h (by simp)
    case str s =>
      split at h
      · exact absurd h (by simp)
      · rename_i ms hms
        rcases create_column_list_strs _
          (fun x hx => by rcases List.mem_map.mp hx with ⟨c, _, rfl⟩; exact ⟨_, rfl⟩) hms with
          ⟨hl, rfl⟩
        have hs0 : s.length = 0 := by
          have hd : s.data = [] := by
            cases hdata : s.data with
            | nil => rfl
            | cons a l2 => rw [hdata] at hl; simp at hl
          simp [String.length, hd]
        rw [hs0] at h
        repeat (any_goals (split at h))
        all_goals (cases h; try simp)
    case arr xs =>
      split at h
      · exact absurd h (by simp)
      · rename_i ms hms
        have hlen := create_column_list_ok_length hms
        repeat (any_goals (split at h))
        all_goals (cases h; try simp [hlen])
    case obj gs =>
      split at h
      · exact absurd h (by simp)
      · rename_i ms hms
        rcases create_column_list_strs _
          (fun x hx => by rcases List.mem_map.mp hx with ⟨c, _, rfl⟩; exact ⟨_, rfl⟩) hms with
          ⟨hl, rfl⟩
        have hg0 : gs.length = 0 := by
          cases hdata : gs with
          | nil => rfl
          | cons a l2 => rw [hdata] at hl; simp at hl
        rw [hg0] at h
        repeat (any_goals (split at h))
        all_goals (cases h; try simp)
  | null => exact absurd h (by simp [create_table_model])
  | bool b => exact absurd h (by simp [create_table_model])
  | num n => exact absurd h (by simp [create_table_model])
  | str s => exact absurd h (by simp [create_table_model])
  | arr xs => exact absurd h (by simp [create_table_model])

theorem mapME_strs_ok {β : Type} {f : Json → Except Err β}
    (hf : ∀ s, f (Json.str s) = .error .attributeError) :
    ∀ (l : List Json) {ms : List β}, (∀ x ∈ l, ∃ s, x = Json.str s) →
      mapME f l = .ok ms → l = [] ∧ ms = [] := by
  intro l ms hstr h
  cases l with
  | nil =>
    simp only [mapME] at h
    cases h
    exact ⟨rfl, rfl⟩
  | cons c cs =>
    rcases hstr c (by simp) with ⟨s, rfl⟩
    simp [mapME, hf] at h

theorem flat_column_model_str (s : String) :
    flat_column_model (Json.str s) = .error .attributeError := rfl

theorem flat_table_model_count (table : Json) (m : TableModel)
    (h : flat_table_model true table = .ok m) : m.column_count = m.columns.length := by
  cases table with
  | obj fs =>
    simp only [flat_table_model, bind, Except.bind, pure, Except.pure, Bool.true_and] at h
    cases hl : lookup? fs "columns" with
    | none =>
      simp only [lookupD, hl, Option.getD, Json.truthy, Json.pyLen] at h
      simp only [Bool.false_eq_true, if_false] at h
      repeat (any_goals (split at h))
      all_goals (cases h; try simp)
    | some v =>
      simp only [lookupD, hl, Option.getD] at h
      cases v with
      | null =>
        simp only [Json.truthy, Json.pyLen, Bool.false_eq_true, if_false] at h
        repeat (any_goals (split at h))
        all_goals (cases h; try simp)
      | bool b =>
        cases b with
        | false =>
          simp only [Json.truthy, Json.pyLen, Bool.false_eq_true, if_false] at h
          repeat (any_goals (split at h))
          all_goals (cases h; try simp)
        | true =>
          simp only [Json.truthy, Json.pyIter, if_true] at h
          exact absurd h (by simp)
      | num n =>
        by_cases hn : n = 0
        · subst hn
          simp only [Json.truthy, Json.pyLen] at h
          repeat (any_goals (split at h))
          all_goals (cases h)
        · simp only [Json.truthy, Json.pyIter] at h
          rw [if_pos (by simp [hn])] at h
          exact absurd h (by simp)
      | str s =>
        by_cases hs : s = ""
        · subst hs
          simp only [Json.truthy, Json.pyLen] at h
          rw [if_neg (by simp)] at h
          repeat (any_goals (split at h))
          all_goals (cases h; try simp)
        · simp only [Json.truthy, Json.pyIter] at h
          rw [if_pos (by simp [hs])] at h
          split at h
          · exact absurd h (by simp)
          · rename_i ms hms
            rcases mapME_strs_ok flat_column_model_str _
              (fun x hx => by rcases List.mem_map.mp hx with ⟨c, _, rfl⟩; exact ⟨_, rfl⟩) hms with
              ⟨hempty, rfl⟩
            have : s.data = [] := by
              cases hdata : s.data with
              | nil => rfl
              | cons a l2 => rw [hdata] at hempty; simp at hempty
            exact absurd (congrArg String.mk this) (by simpa [String.ext_iff] using hs)
      | arr xs =>
        cases xs with
        | nil =>
          simp only [Json.truthy, Json.pyLen, List.isEmpty_nil, Bool.not_true,
            Bool.false_eq_true, if_false] at h
          repeat (any_goals (split at h))
          all_goals (cases h; try simp)
        | cons x0 xs0 =>
          simp only [Json.truthy, Json.pyIter, List.isEmpty_cons, Bool.not_false, if_true,
            Json.pyLen] at h
          split at h
          · exact absurd h (by simp)
          · rename_i ms hms
            have hlen := mapME_ok_length hms
            repeat (any_goals (split at h))
            all_goals (cases h; try simp [hlen])
      | obj gs =>
        cases gs with
        | nil =>
          simp only [Json.truthy, Json.pyLen, List.isEmpty_nil, Bool.not_true,
            Bool.false_eq_true, if_false] at h
          repeat (any_goals (split at h))
          all_goals (cases h; try simp)
        | cons g0 gs0 =>
          simp only [Json.truthy, Json.pyIter, List.isEmpty_cons, Bool.not_false, if_true] at h
          split at h
          · exact absurd h (by simp)
          · rename_i ms hms
            rcases mapME_strs_ok flat_column_model_str _
              (fun x hx => by rcases List.mem_map.mp hx with ⟨c, _, rfl⟩; exact ⟨_, rfl⟩) hms with
              ⟨hempty, _⟩
            simp at hempty
  | null => exact absurd h (by simp [flat_table_model])
  | bool b => exact absurd h (by simp [flat_table_model])
  | num n => exact absurd h (by simp [flat_table_model])
  | str s => exact absurd h (by simp [flat_table_model])
  | arr xs => exact absurd h (by simp [flat_table_model])

theorem process_table_entry_count (o : Upstream) (flags : Flags) (table : Json)
    (m : TableModel) (h : process_table_entry o flags table = .ok m) :
    m.column_count = m.columns.length := by
  simp only [process_table_entry, bind, Except.bind] at h
  split at h
  · exact absurd h (by simp)
  · exact create_table_model_count _ _ _ h

theorem process_database_tables_counts (o : Upstream) (flags : Flags) (sch : Json)
    (lst : List TableModel) (n : Nat)
    (h : process_database_tables o flags sch = .ok (lst, n)) :
    n = lst.length ∧ ∀ t ∈ lst, t.column_count = t.columns.length := by
  simp only [process_database_tables, bind, Except.bind, pure, Except.pure] at h
  split at h
  · exact absurd h (by simp)
  · split at h
    · cases h
      exact ⟨rfl, by simp⟩
    · split at h
      · exact absurd h (by simp)
      · split at h
        · exact absurd h (by simp)
        · split at h
          · exact absurd h (by simp)
          · rename_i ts _ tl htl
            cases h
            refine ⟨(mapME_ok_length htl).symm, fun t ht => ?_⟩
            rcases mapME_ok_mem htl t ht with ⟨raw, _, hraw⟩
            exact process_table_entry_count o flags raw t hraw

theorem process_schema_entry_counts (o : Upstream) (flags : Flags) (sch : Json)
    (sm : SchemaModel) (h : process_schema_entry o flags sch = .ok sm) :
    sm.table_count = sm.tables.length ∧ ∀ t ∈ sm.tables, t.column_count = t.columns.length := by
  simp only [process_schema_entry, bind, Except.bind, pure, Except.pure] at h
  split at h
  · exact absurd h (by simp)
  · rename_i p hp
    obtain ⟨lst, n⟩ := p
    have hcounts := process_database_tables_counts o flags sch lst n hp
    split at h
    · rename_i fs
      repeat (any_goals (split at h))
      all_goals (cases h)
      all_goals exact hcounts
    · exact absurd h (by simp)

theorem process_database_schemas_counts (o : Upstream) (flags : Flags) (db : Json)
    (schs : List SchemaModel) (h : process_database_schemas o flags db = .ok schs) :
    ∀ sm ∈ schs, sm.table_count = sm.tables.length
      ∧ ∀ t ∈ sm.tables, t.column_count = t.columns.length := by
  simp only [process_database_schemas, bind, Except.bind, pure, Except.pure] at h
  split at h
  · exact absurd h (by simp)
  · split at h
    · cases h
      simp
    · split at h
      · exact absurd h (by simp)
      · split at h
        · exact absurd h (by simp)
        · intro sm hsm
          rcases mapME_ok_mem h sm hsm with ⟨raw, _, hraw⟩
          exact process_schema_entry_counts o flags raw sm hraw

theorem process_database_entry_counts (o : Upstream) (flags : Flags) (database : Json)
    (db : DatabaseModel) (h : process_database_entry o flags database = .ok db) :
    db.schema_count = db.schemas.length
    ∧ db.table_count = (db.schemas.map (fun sm => sm.tables.length)).sum
    ∧ ∀ sm ∈ db.schemas, sm.table_count = sm.tables.length
        ∧ ∀ t ∈ sm.tables, t.column_count = t.columns.length := by
  cases database with
  | obj fs =>
    simp only [process_database_entry, bind, Except.bind, pure, Except.pure] at h
    split at h
    · exact absurd h (by simp)
    · split at h
      · exact absurd h (by simp)
      · rename_i schs hschs
        have hsch := process_database_schemas_counts o flags (Json.obj fs) schs hschs
        repeat (any_goals (split at h))
        all_goals (cases h)
        all_goals exact ⟨rfl,
          congrArg List.sum (List.map_congr_left (fun sm hsm => (hsch sm hsm).1)), hsch⟩
  | null => exact absurd h (by simp [process_database_entry])
  | bool b => exact absurd h (by simp [process_database_entry])
  | num n => exact absurd h (by simp [process_database_entry])
  | str s => exact absurd h (by simp [process_database_entry])
  | arr xs => exact absurd h (by simp [process_database_entry])

theorem process_databases_counts (o : Upstream) (flags : Flags) (service_name : String)
    (dbs : List DatabaseModel) (stats : Stats)
    (h : process_databases o flags service_name = .ok (dbs, stats)) :
    (∀ db ∈ dbs,
      db.schema_count = db.schemas.length
      ∧ db.table_count = (db.schemas.map (fun sm => sm.tables.length)).sum
      ∧ ∀ sm ∈ db.schemas,
          sm.table_count = sm.tables.length
          ∧ ∀ t ∈ sm.tables, t.column_count = t.columns.length)
    ∧ stats.total_databases = dbs.length
    ∧ stats.total_schemas = (dbs.map (fun db => db.schemas.length)).sum
    ∧ stats.total_tables =
        (dbs.map (fun db => (db.schemas.map (fun sm => sm.tables.length)).sum)).sum
    ∧ stats.total_columns =
        (dbs.map (fun db =>
          (db.schemas.map (fun sm => (sm.tables.map (fun t => t.columns.length)).sum)).sum)).sum := by
  simp only [process_databases, bind, Except.bind, pure, Except.pure] at h
  split at h
  · exact absurd h (by simp)
  · split at h
    · exact absurd h (by simp)
    · split at h
      · exact absurd h (by simp)
      · split at h
        case h_1 => exact absurd h (by simp)
        case h_2 dl hdl =>
          rw [Except.ok.injEq, Prod.mk.injEq] at h
          obtain ⟨hdbs, hstats⟩ := h
          subst hdbs
          subst hstats
          have hmem : ∀ db ∈ dl, db.schema_count = db.schemas.length
              ∧ db.table_count = (db.schemas.map (fun sm => sm.tables.length)).sum
              ∧ ∀ sm ∈ db.schemas, sm.table_count = sm.tables.length
                  ∧ ∀ t ∈ sm.tables, t.column_count = t.columns.length := by
            intro db hdb
            rcases mapME_ok_mem hdl db hdb with ⟨raw, _, hraw⟩
            exact process_database_entry_counts o flags raw db hraw
          refine ⟨hmem, (mapME_ok_length hdl).symm, rfl, ?_, ?_⟩
          · exact congrArg List.sum (List.map_congr_left (fun db hdb => (hmem db hdb).2.1))
          · simp only [db_column_count]

/-- C2 (amended): every derived count equals the length of its materialized
list in the metadata extraction response — schema_count, table_count (for
schemas and, summed over schemas, for databases), column_count, and all four
summary totals — including after child-listing failures, and the flat
table-listing count equals the length of its table list.  In the flat
listing, column_count equals the length of the materialized columns list
when include_columns is true; with include_columns false the columns list is
left empty while column_count still reports the upstream column count (see
the counterexample). -/
theorem c2_counts_match_lists (o : Upstream) (flags : Flags) (service_name : String)
    (dbs : List DatabaseModel) (stats : Stats) (o2 : TablesUpstream) (svc2 : String)
    (dn sn : Option String) (inc : Bool) :
  (process_databases o flags service_name = .ok (dbs, stats) →
    (∀ db ∈ dbs,
      db.schema_count = db.schemas.length
      ∧ db.table_count = (db.schemas.map (fun sm => sm.tables.length)).sum
      ∧ ∀ sm ∈ db.schemas,
          sm.table_count = sm.tables.length
          ∧ ∀ t ∈ sm.tables, t.column_count = t.columns.length)
    ∧ stats.total_databases = dbs.length
    ∧ stats.total_schemas = (dbs.map (fun db => db.schemas.length)).sum
    ∧ stats.total_tables =
        (dbs.map (fun db => (db.schemas.map (fun sm => sm.tables.length)).sum)).sum
    ∧ stats.total_columns =
        (dbs.map (fun db =>
          (db.schemas.map (fun sm => (sm.tables.map (fun t => t.columns.length)).sum)).sum)).sum)
  ∧ (∀ resp, get_service_tables o2 svc2 dn sn inc = .ok resp →
      resp.count = resp.tables.length
      ∧ (inc = true → ∀ t ∈ resp.tables, t.column_count = t.columns.length)) := by
  constructor
  · exact process_databases_counts o flags service_name dbs stats
  · intro resp h
    simp only [get_service_tables] at h
    split at h
    · exact absurd h (by simp)
    · split at h
      · exact absurd h (by simp)
      · rename_i tables_list htl
        simp only [bind, Except.bind] at htl
        cases h
        refine ⟨rfl, fun hinc t ht => ?_⟩
        subst hinc
        split at htl
        · exact absurd htl (by simp)
        · split at htl
          · exact absurd htl (by simp)
          · rcases mapME_ok_mem htl t ht with ⟨raw, _, hraw⟩
            exact flat_table_model_count raw t hraw

def c2_upstream : TablesUpstream :=
  ⟨fun _ => ⟨200, Json.obj [("data", Json.arr [Json.obj [("columns",
      Json.arr [Json.obj [("name", Json.str "c1")]])]])]⟩⟩

/-- C2 counterexample: with include_columns false, a one-column table is
returned with column_count 1 but an empty materialized columns list. -/
theorem c2_flat_column_count_cex :
  (get_service_tables c2_upstream "svc" none none false).map
      (fun resp => resp.tables.map (fun t => (t.column_count, t.columns.length)))
    = .ok [(1, 0)] := rfl

def c2_meta_upstream : Upstream :=
  { serviceResp := fun _ => ⟨200, Json.obj []⟩
    databasesResp := fun _ => ⟨200, Json.obj [("data", Json.arr [Json.obj []])]⟩
    schemasResp := fun _ => ⟨200, Json.obj [("data", Json.arr [])]⟩
    tablesResp := fun _ => ⟨200, Json.obj [("data", Json.arr [])]⟩
    tableDetail := fun _ _ => .fault }

def c2_resp : TablesResponse :=
  { service_name := "svc"
    filter := { database_name := none, schema_name := none, include_columns := true }
    tables := [{ columns := [ColumnModel.node { name := Json.str "c1" } []], column_count := 1 }]
    count := 1 }

theorem c2_counts_match_lists_witness :
  (process_databases c2_meta_upstream {} "svc" = .ok ([{}], ⟨1, 0, 0, 0⟩))
  ∧ (∀ db ∈ ([{}] : List DatabaseModel), db.schema_count = db.schemas.length)
  ∧ (get_service_tables c2_upstream "svc" none none true = .ok c2_resp)
  ∧ c2_resp.count = c2_resp.tables.length :=
  ⟨rfl,
   fun db hdb =>
     (((c2_counts_match_lists c2_meta_upstream {} "svc" [{}] ⟨1, 0, 0, 0⟩
        c2_upstream "svc" none none true).1 rfl).1 db hdb).1,
   rfl,
   ((c2_counts_match_lists c2_meta_upstream {} "svc" [{}] ⟨1, 0, 0, 0⟩
      c2_upstream "svc" none none true).2 c2_resp rfl).1⟩

theorem filter_flatten (p : α → Bool) :
    ∀ (l : List (List α)), l.flatten.filter p = (l.map (fun x => x.filter p)).flatten := by
  intro l
  induction l with
  | nil => rfl
  | cons x xs ih => simp [List.filter_append, ih]

theorem sumME_map {β : Type} (f : β → Except Err Nat) (g : α → β) :
    ∀ l : List α, sumME f (l.map g) = sumME (fun x => f (g x)) l := by
  intro l
  induction l with
  | nil => rfl
  | cons x xs ih => simp only [List.map, sumME, ih]

theorem sumME_congr {f g : α → Except Err Nat} :
    ∀ {l : List α}, (∀ x ∈ l, f x = g x) → sumME f l = sumME g l := by
  intro l
  induction l with
  | nil => intro _; rfl
  | cons x xs ih =>
    intro h
    simp only [sumME, h x (by simp), ih (fun y hy => h y (by simp [hy]))]

theorem build_set_ok :
    ∀ (vs : List Json) (s : Finset Json) {t : Finset Json},
      build_set s vs = .ok t → t = s ∪ vs.toFinset := by
  intro vs
  induction vs with
  | nil =>
    intro s t h
    simp only [build_set] at h
    cases h
    simp
  | cons v vs ih =>
    intro s t h
    simp only [build_set] at h
    split at h
    · exact absurd h (by simp)
    · rename_i s2 hs2
      have := ih _ h
      subst this
      cases v <;> simp only [set_insert] at hs2 <;> cases hs2 <;>
        simp [Finset.insert_union]

theorem all_owner_values_eq_filter (svc : ServiceModel) (dbs : List DatabaseModel) :
    all_owner_values svc dbs = (owner_name_occurrences svc dbs).filter Json.truthy := by
  simp [all_owner_values, owner_name_occurrences, owner_names, List.filter_append,
    filter_flatten, Function.comp_def]

theorem all_tag_values_eq_filter (svc : ServiceModel) (dbs : List DatabaseModel) :
    all_tag_values svc dbs = (tag_fqn_occurrences svc dbs).filter Json.truthy := by
  simp [all_tag_values, tag_fqn_occurrences, tag_fqns, List.filter_append,
    filter_flatten, Function.comp_def]

theorem strip_children_column_attrs (c : ColumnModel) :
    (strip_children_column c).attrs = c.attrs := by
  cases c
  rfl

theorem count_views_strip (dbs : List DatabaseModel) :
    count_views (strip_column_children dbs) = count_views dbs := by
  simp only [count_views, strip_column_children, sumME_map]
  refine sumME_congr (fun db _ => ?_)
  simp only [strip_children_db, sumME_map]
  refine sumME_congr (fun sch _ => ?_)
  simp only [strip_children_schema, sumME_map]
  refine sumME_congr (fun t _ => ?_)
  simp [count_views_table, strip_children_table]

theorem all_owner_values_strip (svc : ServiceModel) (dbs : List DatabaseModel) :
    all_owner_values svc (strip_column_children dbs) = all_owner_values svc dbs := by
  simp [all_owner_values, strip_column_children, strip_children_db, strip_children_schema,
    strip_children_table, owner_names, List.map_map, Function.comp_def]

theorem all_tag_values_strip (svc : ServiceModel) (dbs : List DatabaseModel) :
    all_tag_values svc (strip_column_children dbs) = all_tag_values svc dbs := by
  simp [all_tag_values, strip_column_children, strip_children_db, strip_children_schema,
    strip_children_table, tag_fqns, List.map_map, Function.comp_def,
    strip_children_column_attrs]

/-- C10: nested column children contribute nothing to the metadata summary:
stripping every nested child column (at any depth) from the materialized
tree leaves the summary — in particular `total_tags` — unchanged, because
the aggregator only visits the top-level columns of each table. -/
theorem c10_nested_column_tags_ignored (now : String) (svc : ServiceModel)
    (dbs : List DatabaseModel) (stats : Stats) :
    create_metadata_summary now svc (strip_column_children dbs) stats =
      create_metadata_summary now svc dbs stats := by
  simp only [create_metadata_summary, count_views_strip, all_owner_values_strip,
    all_tag_values_strip]

/-- C6: for every successfully built MetadataSummary, total_owners is the
number of distinct truthy owner-name values collected across service,
databases, schemas and tables, and total_tags the number of distinct truthy
tag FQNs across all of those plus the top-level columns; for string values,
truthy means non-empty, and appending an owner with an empty name or a tag
with an empty FQN leaves the summary unchanged. -/
theorem c6_distinct_nonempty_owner_tag_counts (now : String) (svc : ServiceModel)
    (dbs : List DatabaseModel) (stats : Stats) (summary : MetadataSummary)
    (ow : OwnerModel) (tg : TagModel) :
  (create_metadata_summary now svc dbs stats = .ok summary →
     summary.total_owners = ((owner_name_occurrences svc dbs).filter Json.truthy).toFinset.card
     ∧ summary.total_tags = ((tag_fqn_occurrences svc dbs).filter Json.truthy).toFinset.card)
  ∧ (∀ s : String, Json.truthy (Json.str s) = true ↔ s ≠ "")
  ∧ (ow.name = Json.str "" →
      create_metadata_summary now (with_extra_owner svc ow) dbs stats =
        create_metadata_summary now svc dbs stats)
  ∧ (tg.tagFQN = Json.str "" →
      create_metadata_summary now (with_extra_tag svc tg) dbs stats =
        create_metadata_summary now svc dbs stats) := by
  refine ⟨fun h => ?_, fun s => by simp [Json.truthy], fun how => ?_, fun htg => ?_⟩
  · simp only [create_metadata_summary, bind, Except.bind, pure, Except.pure] at h
    split at h
    · exact absurd h (by simp)
    · split at h
      · exact absurd h (by simp)
      · split at h
        · exact absurd h (by simp)
        · rename_i xo so hso xt st hst
          cases h
          constructor
          · have := build_set_ok _ _ hso
            rw [all_owner_values_eq_filter] at this
            simp [this]
          · have := build_set_ok _ _ hst
            rw [all_tag_values_eq_filter] at this
            simp [this]
  · have h1 : all_owner_values (with_extra_owner svc ow) dbs = all_owner_values svc dbs := by
      simp [all_owner_values, with_extra_owner, owner_names, List.filter_append, how,
        Json.truthy]
    have h2 : all_tag_values (with_extra_owner svc ow) dbs = all_tag_values svc dbs := by
      simp [all_tag_values, with_extra_owner]
    simp only [create_metadata_summary, h1, h2]
  · have h1 : all_owner_values (with_extra_tag svc tg) dbs = all_owner_values svc dbs := by
      simp [all_owner_values, with_extra_tag]
    have h2 : all_tag_values (with_extra_tag svc tg) dbs = all_tag_values svc dbs := by
      simp [all_tag_values, with_extra_tag, tag_fqns, List.filter_append, htg, Json.truthy]
    simp only [create_metadata_summary, h1, h2]

def c6_svc : ServiceModel :=
  { owners := [{ name := Json.str "alice" }, { name := Json.str "" }]
    tags := [{ tagFQN := Json.str "PII.Sensitive" }] }

def c6_summary : MetadataSummary :=
  { total_owners := 1, total_tags := 1, data_extraction_timestamp := "2026-10-12T00:00:00Z" }

theorem c6_distinct_nonempty_owner_tag_counts_witness :
  (create_metadata_summary "2026-10-12T00:00:00" c6_svc [] ⟨0, 0, 0, 0⟩ = .ok c6_summary)
  ∧ c6_summary.total_owners =
      ((owner_name_occurrences c6_svc []).filter Json.truthy).toFinset.card :=
  ⟨rfl,
   ((c6_distinct_nonempty_owner_tag_counts "2026-10-12T00:00:00" c6_svc [] ⟨0, 0, 0, 0⟩
      c6_summary {} {}).1 rfl).1⟩
